import Mathlib

/-!
Shallow embedding of the rideconnect client (src/src/store.ts,
src/src/components/MapView.tsx, and the server utility in
src/unnamed/part_000) for checking the specification's claims.

Numbers that the TypeScript source manipulates as IEEE doubles are
modelled as exact rationals (`ℚ`) where the code only compares, adds and
scales them, and as reals (`ℝ`) where the code computes with
transcendental functions (the haversine distance).  Asynchronous backend
calls are modelled by passing the backend's response to the operation as
an explicit argument, and the upstream requests an operation issues are
returned as an explicit trace.
-/

/-- Role of a participant, `"driver" | "passenger"` in the source. -/
inductive Role where
  | driver
  | passenger
deriving DecidableEq

/-- `Location` from store.ts: `{ lat: number; lng: number }`. -/
structure Location where
  lat : ℚ
  lng : ℚ
deriving DecidableEq

/-- `User` from store.ts, including the compatibility aliases the source
keeps alongside the DB-row field names. -/
structure User where
  id : String
  name : String
  role : Role
  lat : Option ℚ
  lng : Option ℚ
  is_online : Bool
  is_premium : Bool
  location : Option Location
  isOnline : Bool
  isPremium : Bool
deriving DecidableEq

/-- A raw row of the `users` table as delivered by the backend. -/
structure RowUser where
  id : String
  name : String
  role : Role
  lat : Option ℚ
  lng : Option ℚ
  is_online : Bool
  is_premium : Bool
deriving DecidableEq

/-- `mapUser` from store.ts: maps a DB row to a `User`, deriving the
compatibility fields (`location` is present only when both coordinates
are). -/
def mapUser (row : RowUser) : User :=
  { id := row.id
    name := row.name
    role := row.role
    lat := row.lat
    lng := row.lng
    is_online := row.is_online
    is_premium := row.is_premium
    location :=
      match row.lat, row.lng with
      | some la, some ln => some { lat := la, lng := ln }
      | _, _ => none
    isOnline := row.is_online
    isPremium := row.is_premium }

/-- `Message` from store.ts, with the compatibility aliases.  The
server-assigned creation timestamp `created_at` is modelled as an
integer clock value; `timestamp` is the alias `mapMessage` derives from
it. -/
structure Message where
  id : String
  from_user : String
  to_user : String
  text : String
  created_at : ℤ
  fromAlias : String
  toAlias : String
  timestamp : ℤ
deriving DecidableEq

/-- A raw row of the `messages` table as delivered by the backend. -/
structure MessageRow where
  id : String
  from_user : String
  to_user : String
  text : String
  created_at : ℤ
deriving DecidableEq

/-- `mapMessage` from store.ts: maps a DB row to a `Message` with the
compatibility aliases (`from`/`to`/`timestamp`; `from` and `to` are
reserved-ish names, rendered here as `fromAlias`/`toAlias`). -/
def mapMessage (row : MessageRow) : Message :=
  { id := row.id
    from_user := row.from_user
    to_user := row.to_user
    text := row.text
    created_at := row.created_at
    fromAlias := row.from_user
    toAlias := row.to_user
    timestamp := row.created_at }

/-- The client store's state (`AppState` data fields in store.ts).  The
realtime channel handle is modelled by whether a subscription is held. -/
structure ClientState where
  currentUser : Option User
  users : List User
  messages : List Message
  channel : Bool
deriving DecidableEq

/-- The visibility filter `visibleUsers` from MapView.tsx (the identical
copy in the UserList component is the same computation).  The code's
`getDistance` call computes the haversine distance with transcendental
functions; the comparison against the radius is modelled by taking the
distance function `dist` as a parameter, so every theorem about this
filter holds for the haversine distance in particular.  When the viewer
has no position the component returns before the filter runs and shows
nothing, i.e. the visible set is empty. -/
def visibleUsers (dist : Location → Location → ℚ) (viewer : User)
    (roster : List User) : List User :=
  match viewer.location with
  | none => []
  | some vloc =>
    let visibilityRadius : ℚ := if viewer.isPremium then 5 else 1
    roster.filter (fun u =>
      if u.id = viewer.id then false
      else if !u.isOnline then false
      else
        match u.location with
        | none => false
        | some uloc =>
          if u.role = viewer.role then false
          else decide (dist vloc uloc ≤ visibilityRadius))

/-- Membership characterisation of the filter's predicate. -/
theorem visibleUsers_pred_iff (dist : Location → Location → ℚ)
    (viewer u : User) (vloc : Location) (r : ℚ) :
    ((if u.id = viewer.id then false
      else if !u.isOnline then false
      else
        match u.location with
        | none => false
        | some uloc =>
          if u.role = viewer.role then false
          else decide (dist vloc uloc ≤ r)) = true) ↔
      (u.id ≠ viewer.id ∧ u.isOnline = true ∧
        ∃ uloc, u.location = some uloc ∧ u.role ≠ viewer.role ∧
          dist vloc uloc ≤ r) := by
  rcases hloc : u.location with _ | uloc
  · constructor
    · intro h
      exfalso
      by_cases h1 : u.id = viewer.id
      · simp [h1] at h
      · by_cases h2 : u.isOnline
        · simp [h1, h2, hloc] at h
        · simp [h1, h2] at h
    · rintro ⟨-, -, uloc, huloc, -⟩
      exact Option.noConfusion huloc
  · by_cases h1 : u.id = viewer.id
    · simp [h1]
    · by_cases h2 : u.isOnline
      · by_cases h3 : u.role = viewer.role
        · simp [h1, h2, h3, hloc]
        · simp [h1, h2, h3, hloc]
      · simp [h1, h2, hloc]

/-- Claim C1: for every viewer with a position and every roster, the
visibility filter returns exactly those roster entities whose id differs
from the viewer's, whose online flag is true, which have a position,
whose role differs from the viewer's, and whose distance from the viewer
is at most the viewer's radius — 5 km if the viewer is premium, 1 km
otherwise.  Stated for an arbitrary distance function, hence in
particular for the haversine distance the code plugs in. -/
theorem visibleUsers_mem_iff (dist : Location → Location → ℚ)
    (viewer u : User) (roster : List User) (vloc : Location)
    (hv : viewer.location = some vloc) :
    u ∈ visibleUsers dist viewer roster ↔
      (u ∈ roster ∧ u.id ≠ viewer.id ∧ u.isOnline = true ∧
        ∃ uloc, u.location = some uloc ∧ u.role ≠ viewer.role ∧
          dist vloc uloc ≤ (if viewer.isPremium then (5 : ℚ) else 1)) := by
  unfold visibleUsers
  rw [hv]
  rw [List.mem_filter]
  exact and_congr_right fun _ =>
    visibleUsers_pred_iff dist viewer u vloc _

/-- Witness for C1 at a concrete viewer, roster and entity. -/
theorem visibleUsers_mem_iff_witness :
    ({ id := "b", name := "B", role := .driver, lat := some 1, lng := some 1,
       is_online := true, is_premium := false,
       location := some { lat := 1, lng := 1 }, isOnline := true,
       isPremium := false } : User) ∈
      visibleUsers (fun _ _ => 0)
        { id := "a", name := "A", role := .passenger, lat := some 0,
          lng := some 0, is_online := true, is_premium := false,
          location := some { lat := 0, lng := 0 }, isOnline := true,
          isPremium := false }
        [{ id := "b", name := "B", role := .driver, lat := some 1,
           lng := some 1, is_online := true, is_premium := false,
           location := some { lat := 1, lng := 1 }, isOnline := true,
           isPremium := false }] :=
  (visibleUsers_mem_iff (fun _ _ => 0) _ _ _ { lat := 0, lng := 0 }
    rfl).mpr
    ⟨by decide, by decide, by decide,
      ⟨{ lat := 1, lng := 1 }, rfl, by decide, by norm_num⟩⟩

/-- A realtime notification on the `users` table (the payload of the
`postgres_changes` subscription in store.ts; a DELETE payload carries
only the old row's id). -/
inductive UserEvent where
  | insert (row : RowUser)
  | update (row : RowUser)
  | delete (oldId : String)

/-- The `users` branch of the realtime handler in store.ts: INSERT
appends the mapped row to the roster unconditionally; UPDATE replaces
the matching entity by id and, when the updated entity is the current
user, also refreshes `currentUser`; DELETE removes the matching entity
by id. -/
def applyUsersEvent (s : ClientState) (ev : UserEvent) : ClientState :=
  match ev with
  | .insert row =>
    { s with users := s.users ++ [mapUser row] }
  | .update row =>
    let updatedUser := mapUser row
    let s1 := { s with
      users := s.users.map
        (fun (u : User) => if u.id = updatedUser.id then updatedUser else u) }
    match s1.currentUser with
    | some cu =>
      if cu.id = updatedUser.id then { s1 with currentUser := some updatedUser }
      else s1
    | none => s1
  | .delete oldId =>
    { s with users := s.users.filter fun u => ¬ u.id = oldId }

/-- The `messages` branch of the realtime handler in store.ts: an
inserted message is appended to the log only when a session exists, the
message references the current user as sender or recipient, and no
message with the same id is already in the log. -/
def applyMessagesInsert (s : ClientState) (row : MessageRow) : ClientState :=
  let newMessage := mapMessage row
  match s.currentUser with
  | none => s
  | some cu =>
    if newMessage.from_user = cu.id ∨ newMessage.to_user = cu.id then
      if s.messages.any (fun m => m.id = newMessage.id) then s
      else { s with messages := s.messages ++ [newMessage] }
    else s

/-- A concrete empty state with a session, used by the concrete
counterexamples below. -/
def exState : ClientState :=
  { currentUser := some (mapUser
      { id := "me", name := "Me", role := .driver, lat := none, lng := none,
        is_online := false, is_premium := false })
    users := []
    messages := []
    channel := true }

/-- Counterexample to claim C3 as stated: the `users` INSERT handler
appends without checking whether the id is already a roster member, so
applying the same insert notification twice yields a roster with two
entries carrying the same id. -/
theorem usersInsert_duplicate_id_cex :
    ((applyUsersEvent (applyUsersEvent exState
        (.insert { id := "a", name := "A", role := .passenger, lat := none,
                   lng := none, is_online := true, is_premium := false }))
        (.insert { id := "a", name := "A", role := .passenger, lat := none,
                   lng := none, is_online := true, is_premium := false })).users.map
      (fun u => u.id)) = ["a", "a"] ∧
    ¬ ((["a", "a"] : List String).Nodup) := by
  constructor
  · rfl
  · decide

/-- After a fold of INSERT events the roster is the old roster followed
by the mapped new rows. -/
theorem foldl_usersInsert_users (rows : List RowUser) (s : ClientState) :
    (rows.foldl (fun t row => applyUsersEvent t (.insert row)) s).users =
      s.users ++ rows.map mapUser := by
  induction rows generalizing s with
  | nil => simp
  | cons r rest ih =>
    simp only [List.foldl_cons, List.map_cons]
    rw [ih]
    simp [applyUsersEvent]

/-- Claim C3 (amended): the `users` INSERT handler appends the carried
entity unconditionally, with no id check; the roster stays free of
duplicate ids only under the extra assumptions that the existing roster
ids are distinct, the inserted ids are pairwise distinct, and no
inserted id is already a roster member. -/
theorem usersInsert_nodup_of_fresh (s : ClientState) (rows : List RowUser)
    (h1 : (s.users.map fun u => u.id).Nodup)
    (h2 : (rows.map fun r => r.id).Nodup)
    (h3 : ∀ r ∈ rows, ∀ u ∈ s.users, r.id ≠ u.id) :
    ((rows.foldl (fun t row => applyUsersEvent t (.insert row)) s).users.map
      fun u => u.id).Nodup := by
  rw [foldl_usersInsert_users, List.map_append, List.nodup_append]
  refine ⟨h1, ?_, ?_⟩
  · have : ((rows.map mapUser).map fun u => u.id) = rows.map fun r => r.id := by
      rw [List.map_map]
      rfl
    rw [this]
    exact h2
  · intro a ha hb
    rw [List.mem_map] at ha hb
    obtain ⟨u, hu, hua⟩ := ha
    obtain ⟨v, hv, hva⟩ := hb
    rw [List.mem_map] at hv
    obtain ⟨r, hr, hru⟩ := hv
    have : r.id = u.id := by
      rw [← hru] at hva
      rw [← hva] at hua
      exact hua.symm
    exact h3 r hr u hu this

/-- Witness for the amended C3 at a concrete roster and insert list. -/
theorem usersInsert_nodup_of_fresh_witness :
    (((([{ id := "b", name := "B", role := .driver, lat := none, lng := none,
           is_online := true, is_premium := false }] :
        List RowUser).foldl (fun t row => applyUsersEvent t (.insert row))
        exState).users.map fun u => u.id)).Nodup :=
  usersInsert_nodup_of_fresh exState _ (by decide) (by decide)
    (by intro r hr u hu; simp [exState] at hu)

/-- A message-insert notification with the later server timestamp. -/
def exRowLate : MessageRow :=
  { id := "m2", from_user := "me", to_user := "x", text := "b", created_at := 2 }

/-- A message-insert notification with the earlier server timestamp. -/
def exRowEarly : MessageRow :=
  { id := "m1", from_user := "me", to_user := "x", text := "a", created_at := 1 }

/-- Counterexample to claim C2 as stated: the `messages` INSERT handler
appends in arrival order and never sorts, so delivering the
timestamp-2 message before the timestamp-1 message leaves the log in
descending timestamp order. -/
theorem messagesInsert_order_cex :
    ¬ List.Pairwise (fun a b : Message => a.created_at ≤ b.created_at)
      (([exRowLate, exRowEarly].foldl applyMessagesInsert exState).messages) := by
  intro h
  have hmsgs : ([exRowLate, exRowEarly].foldl applyMessagesInsert
      exState).messages = [mapMessage exRowLate, mapMessage exRowEarly] := by
    rfl
  rw [hmsgs, List.pairwise_cons] at h
  have h21 := h.1 (mapMessage exRowEarly) (by simp)
  simp only [mapMessage, exRowLate, exRowEarly] at h21
  norm_num at h21

/-- Each message-insert notification either leaves the log unchanged or
appends the mapped row at the end. -/
theorem applyMessagesInsert_messages (s : ClientState) (row : MessageRow) :
    (applyMessagesInsert s row).messages = s.messages ∨
    (applyMessagesInsert s row).messages = s.messages ++ [mapMessage row] := by
  unfold applyMessagesInsert
  rcases hcu : s.currentUser with _ | cu
  · exact Or.inl rfl
  · dsimp only
    by_cases h1 : (mapMessage row).from_user = cu.id ∨ (mapMessage row).to_user = cu.id
    · by_cases h2 : s.messages.any (fun m => m.id = (mapMessage row).id)
      · simp [h1, h2]
      · simp [h1, h2]
    · simp [h1]

/-- Claim C2 (amended): the reconciler appends accepted message inserts
in arrival order without sorting, so the log's iteration order is
ascending by creation timestamp provided the notifications arrive in
ascending timestamp order and every existing log entry's timestamp is no
larger than the arriving ones. -/
theorem messagesInsert_sorted_of_ordered_arrival (s : ClientState)
    (rows : List MessageRow)
    (hs : List.Pairwise (fun a b : Message => a.created_at ≤ b.created_at)
      s.messages)
    (hcross : ∀ m ∈ s.messages, ∀ r ∈ rows, m.created_at ≤ r.created_at)
    (hrows : List.Pairwise (fun a b : MessageRow => a.created_at ≤ b.created_at)
      rows) :
    List.Pairwise (fun a b : Message => a.created_at ≤ b.created_at)
      ((rows.foldl applyMessagesInsert s).messages) := by
  induction rows generalizing s with
  | nil => simpa using hs
  | cons r rest ih =>
    rw [List.foldl_cons]
    rw [List.pairwise_cons] at hrows
    rcases applyMessagesInsert_messages s r with h | h
    · refine ih (applyMessagesInsert s r) (h ▸ hs) ?_ hrows.2
      intro m hm r' hr'
      rw [h] at hm
      exact hcross m hm r' (List.mem_cons_of_mem r hr')
    · refine ih (applyMessagesInsert s r) ?_ ?_ hrows.2
      · rw [h, List.pairwise_append]
        refine ⟨hs, List.pairwise_singleton _ _, ?_⟩
        intro m hm m' hm'
        rw [List.mem_singleton] at hm'
        subst hm'
        exact hcross m hm r (List.mem_cons_self r rest)
      · intro m hm r' hr'
        rw [h, List.mem_append, List.mem_singleton] at hm
        rcases hm with hm | hm
        · exact hcross m hm r' (List.mem_cons_of_mem r hr')
        · subst hm
          exact hrows.1 r' hr'

/-- Witness for the amended C2 at a concrete state and arrival order. -/
theorem messagesInsert_sorted_of_ordered_arrival_witness :
    List.Pairwise (fun a b : Message => a.created_at ≤ b.created_at)
      (([exRowEarly, exRowLate].foldl applyMessagesInsert exState).messages) :=
  messagesInsert_sorted_of_ordered_arrival exState [exRowEarly, exRowLate]
    (by simp [exState]) (by simp [exState])
    (by simp [exRowEarly, exRowLate])

/-- An upstream request issued by a store operation. -/
inductive Request where
  | createUser (name : String) (role : Role)
  | fetchUsers
  | fetchMessages (uid : String)
  | subscribe
  | updateUserRow (uid : String)
  | createMessage (fromId toId text : String)
deriving DecidableEq

/-- The value a store operation produces: the next client state, the
string the enclosing promise resolves with (`none` models resolving with
no value, i.e. `undefined`/`null` in the source), and the trace of
upstream requests the operation issued. -/
structure OpResult where
  state : ClientState
  result : Option String
  requests : List Request
deriving DecidableEq

/-- The backend's behaviour during one `connect` call: whether the
client is configured, the response to the user-creation insert (an
`error` with message `e` models a rejection; the empty string models a
rejection whose error object carries no usable message, which the code's
`error?.message || ...` fallback replaces), and the two snapshot query
results (`none` models a response with no data). -/
structure Backend where
  configured : Bool
  userInsert : Except String RowUser
  allUsers : Option (List RowUser)
  userMessages : Option (List MessageRow)

/-- `connect` from store.ts: fails fast when unconfigured; on a rejected
user creation resolves with the error's message (or the fallback text);
on success stores self, loads the roster and message snapshots, opens
the subscription, and resolves with `null`. -/
def connect (b : Backend) (s : ClientState) (name : String) (role : Role) :
    OpResult :=
  if !b.configured then
    { state := s
      result := some "Supabase is not configured. Please set VITE_SUPABASE_URL and VITE_SUPABASE_ANON_KEY."
      requests := [] }
  else
    match b.userInsert with
    | .error e =>
      { state := s
        result := some (if e = "" then "Failed to connect. Please try again." else e)
        requests := [.createUser name role] }
    | .ok row =>
      let currentUser := mapUser row
      let s1 := { s with currentUser := some currentUser }
      let s2 :=
        match b.allUsers with
        | some rows => { s1 with users := rows.map mapUser }
        | none => s1
      let s3 :=
        match b.userMessages with
        | some rows => { s2 with messages := rows.map mapMessage }
        | none => s2
      { state := { s3 with channel := true }
        result := none
        requests := [.createUser name role, .fetchUsers,
          .fetchMessages currentUser.id, .subscribe] }

/-- `updateLocation` from store.ts: without a session it returns at
once; otherwise it optimistically updates self's coordinates locally and
requests the same update upstream. -/
def updateLocation (s : ClientState) (location : Location) : OpResult :=
  match s.currentUser with
  | none => { state := s, result := none, requests := [] }
  | some currentUser =>
    let updated : User :=
      { currentUser with
        lat := some location.lat
        lng := some location.lng
        location := some location }
    { state := { s with currentUser := some updated }
      result := none
      requests := [.updateUserRow currentUser.id] }

/-- `toggleOnline` from store.ts: guard, optimistic local flip of the
online flag, upstream update. -/
def toggleOnline (s : ClientState) (isOnline : Bool) : OpResult :=
  match s.currentUser with
  | none => { state := s, result := none, requests := [] }
  | some currentUser =>
    let updated : User :=
      { currentUser with is_online := isOnline, isOnline := isOnline }
    { state := { s with currentUser := some updated }
      result := none
      requests := [.updateUserRow currentUser.id] }

/-- `togglePremium` from store.ts: guard, optimistic local flip of the
premium flag, upstream update. -/
def togglePremium (s : ClientState) (isPremium : Bool) : OpResult :=
  match s.currentUser with
  | none => { state := s, result := none, requests := [] }
  | some currentUser =>
    let updated : User :=
      { currentUser with is_premium := isPremium, isPremium := isPremium }
    { state := { s with currentUser := some updated }
      result := none
      requests := [.updateUserRow currentUser.id] }

/-- `sendMessage` from store.ts: without a session it returns at once;
otherwise it issues the message insert; on rejection it logs and returns
nothing; on acknowledgment it appends the acknowledged row locally
unless a message with the same id is already in the log. -/
def sendMessage (resp : Except String MessageRow) (s : ClientState)
    (toId text : String) : OpResult :=
  match s.currentUser with
  | none => { state := s, result := none, requests := [] }
  | some currentUser =>
    match resp with
    | .error _ =>
      { state := s, result := none
        requests := [.createMessage currentUser.id toId text] }
    | .ok row =>
      let msg := mapMessage row
      if s.messages.any (fun m => m.id = msg.id) then
        { state := s, result := none
          requests := [.createMessage currentUser.id toId text] }
      else
        { state := { s with messages := s.messages ++ [msg] }, result := none
          requests := [.createMessage currentUser.id toId text] }

/-- Counterexample to claim C4 as stated: when the backend rejects the
message creation, `sendMessage` resolves with no value at all — the
rejection is logged and swallowed, not surfaced to the caller as a
message string (the state is also left unchanged). -/
theorem sendMessage_rejection_cex :
    (sendMessage (.error "insert failed") exState "x" "hi").result = none ∧
    (sendMessage (.error "insert failed") exState "x" "hi").state = exState :=
  ⟨rfl, rfl⟩

/-- Claim C4 (amended): a backend rejection of entity creation is
surfaced by `connect` to its caller as a message string (the error's
message, or a fallback text when that message is empty) with the client
state unchanged; a rejection of message creation is swallowed by
`sendMessage` (no string surfaced, state unchanged); each operation
issues exactly one creation request, so neither retries. -/
theorem creation_rejected_no_retry (b : Backend) (s s' : ClientState)
    (name toId text e e' : String) (role : Role) (cu : User)
    (hb : b.configured = true) (hins : b.userInsert = .error e)
    (hcu : s'.currentUser = some cu) :
    ((connect b s name role).result =
        some (if e = "" then "Failed to connect. Please try again." else e) ∧
      (connect b s name role).state = s ∧
      (connect b s name role).requests = [.createUser name role]) ∧
    ((sendMessage (.error e') s' toId text).result = none ∧
      (sendMessage (.error e') s' toId text).state = s' ∧
      (sendMessage (.error e') s' toId text).requests =
        [.createMessage cu.id toId text]) := by
  constructor
  · rw [connect, hb, hins]
    exact ⟨rfl, rfl, rfl⟩
  · rw [sendMessage, hcu]
    exact ⟨rfl, rfl, rfl⟩

/-- Witness for the amended C4 at a concrete backend and state. -/
theorem creation_rejected_no_retry_witness :
    (((connect
        { configured := true, userInsert := .error "duplicate key",
          allUsers := none, userMessages := none }
        { currentUser := none, users := [], messages := [], channel := false }
        "Me" .driver).result =
          some (if "duplicate key" = "" then "Failed to connect. Please try again."
            else "duplicate key") ∧
      (connect
        { configured := true, userInsert := .error "duplicate key",
          allUsers := none, userMessages := none }
        { currentUser := none, users := [], messages := [], channel := false }
        "Me" .driver).state =
          { currentUser := none, users := [], messages := [], channel := false } ∧
      (connect
        { configured := true, userInsert := .error "duplicate key",
          allUsers := none, userMessages := none }
        { currentUser := none, users := [], messages := [], channel := false }
        "Me" .driver).requests = [.createUser "Me" .driver]) ∧
    ((sendMessage (.error "oops") exState "x" "hi").result = none ∧
      (sendMessage (.error "oops") exState "x" "hi").state = exState ∧
      (sendMessage (.error "oops") exState "x" "hi").requests =
        [.createMessage "me" "x" "hi"])) :=
  creation_rejected_no_retry
    { configured := true, userInsert := .error "duplicate key",
      allUsers := none, userMessages := none }
    { currentUser := none, users := [], messages := [], channel := false }
    exState "Me" "x" "hi" "duplicate key" "oops" .driver
    (mapUser { id := "me", name := "Me", role := .driver, lat := none,
                lng := none, is_online := false, is_premium := false })
    rfl rfl rfl

/-- Claim C10: every mutation operation invoked while no session exists
(`currentUser` is null) leaves the entire client state unchanged,
surfaces nothing, and issues no upstream request. -/
theorem mutations_noop_without_session (s : ClientState) (location : Location)
    (isOnline isPremium : Bool) (toId text : String)
    (resp : Except String MessageRow)
    (h : s.currentUser = none) :
    updateLocation s location = { state := s, result := none, requests := [] } ∧
    toggleOnline s isOnline = { state := s, result := none, requests := [] } ∧
    togglePremium s isPremium = { state := s, result := none, requests := [] } ∧
    sendMessage resp s toId text =
      { state := s, result := none, requests := [] } := by
  refine ⟨?_, ?_, ?_, ?_⟩
  · rw [updateLocation, h]
  · rw [toggleOnline, h]
  · rw [togglePremium, h]
  · rw [sendMessage, h]

/-- A concrete state with no session. -/
def emptyState : ClientState :=
  { currentUser := none, users := [], messages := [], channel := false }

/-- Witness for C10 at a concrete sessionless state. -/
theorem mutations_noop_without_session_witness :
    updateLocation emptyState { lat := 1, lng := 2 } =
      { state := emptyState, result := none, requests := [] } ∧
    toggleOnline emptyState true =
      { state := emptyState, result := none, requests := [] } ∧
    togglePremium emptyState true =
      { state := emptyState, result := none, requests := [] } ∧
    sendMessage (.error "down") emptyState "x" "hi" =
      { state := emptyState, result := none, requests := [] } :=
  mutations_noop_without_session emptyState
    { lat := 1, lng := 2 } true true "x" "hi" (.error "down") rfl

/-- Claim C6: when the log holds no message with the acknowledged id, a
successful `sendMessage` appends its optimistic copy, and a subsequent
feed echo carrying the same id is absorbed by the dedup check, leaving
the log with exactly one entry for that id. -/
theorem sendMessage_echo_dedup (s : ClientState) (cu : User)
    (row echo : MessageRow) (toId text : String)
    (hcu : s.currentUser = some cu)
    (hfresh : ∀ m ∈ s.messages, m.id ≠ row.id)
    (hid : echo.id = row.id) :
    ((applyMessagesInsert (sendMessage (.ok row) s toId text).state
        echo).messages.filter (fun m => m.id = row.id)).length = 1 := by
  have hany : s.messages.any (fun m => m.id = (mapMessage row).id) = false := by
    rw [List.any_eq_false]
    intro m hm
    simp only [mapMessage, decide_eq_true_eq]
    exact hfresh m hm
  have hstate : (sendMessage (.ok row) s toId text).state =
      { s with messages := s.messages ++ [mapMessage row] } := by
    rw [sendMessage, hcu]
    simp only [hany]
    rfl
  rw [hstate]
  have hmsgs : (applyMessagesInsert
      { s with messages := s.messages ++ [mapMessage row] } echo).messages =
      s.messages ++ [mapMessage row] := by
    rw [applyMessagesInsert]
    simp only [hcu]
    by_cases h1 : (mapMessage echo).from_user = cu.id ∨
        (mapMessage echo).to_user = cu.id
    · have h2 : (s.messages ++ [mapMessage row]).any
          (fun m => m.id = (mapMessage echo).id) = true := by
        rw [List.any_eq_true]
        refine ⟨mapMessage row, by simp, ?_⟩
        simp [mapMessage, hid]
      simp [h1, h2]
    · simp [h1]
  rw [hmsgs, List.filter_append]
  have h0 : s.messages.filter (fun m => m.id = row.id) = [] := by
    rw [List.filter_eq_nil_iff]
    intro m hm
    simp only [decide_eq_true_eq]
    exact hfresh m hm
  rw [h0]
  simp [mapMessage]

/-- Witness for C6 at a concrete state, acknowledgment and echo. -/
theorem sendMessage_echo_dedup_witness :
    ((applyMessagesInsert (sendMessage
        (.ok { id := "m7", from_user := "me", to_user := "x", text := "hi",
               created_at := 3 }) exState "x" "hi").state
        { id := "m7", from_user := "me", to_user := "x", text := "hi",
          created_at := 3 }).messages.filter (fun m => m.id = "m7")).length
      = 1 :=
  sendMessage_echo_dedup exState
    (mapUser { id := "me", name := "Me", role := .driver, lat := none,
               lng := none, is_online := false, is_premium := false })
    { id := "m7", from_user := "me", to_user := "x", text := "hi",
      created_at := 3 }
    { id := "m7", from_user := "me", to_user := "x", text := "hi",
      created_at := 3 }
    "x" "hi" rfl (by intro m hm; simp [exState] at hm) rfl

/-- `RouteStep` from MapView.tsx (distance in meters, duration in
seconds). -/
structure RouteStep where
  instruction : String
  distance : ℚ
  duration : ℚ
deriving DecidableEq

/-- `RouteData` from MapView.tsx (total distance in km, total duration
in minutes). -/
structure RouteData where
  coordinates : List (ℚ × ℚ)
  totalDistance : ℚ
  totalDuration : ℚ
  steps : List RouteStep
deriving DecidableEq

/-- A turn-by-turn step of the directions provider's response.  The
provider omits `modifier` on some maneuvers; the empty string models an
absent (or empty, equally falsy in the source) modifier, and likewise an
unnamed road is the empty string. -/
structure OsrmStep where
  maneuverType : String
  modifier : String
  name : String
  distance : ℚ
  duration : ℚ
deriving DecidableEq

/-- A leg of a provider route. -/
structure OsrmLeg where
  steps : List OsrmStep
deriving DecidableEq

/-- A route of the provider's response body.  `geometry` is the GeoJSON
coordinate list in the provider's native `[lng, lat]` axis order. -/
structure OsrmRoute where
  geometry : List (ℚ × ℚ)
  distance : ℚ
  duration : ℚ
  legs : List OsrmLeg
deriving DecidableEq

/-- The parsed JSON body of a provider response. -/
structure OsrmBody where
  code : String
  routes : List OsrmRoute
deriving DecidableEq

/-- The outcome of the network call inside `fetchRoute`: the fetch
itself threw, the HTTP status was non-success (`!response.ok`), or a
body was delivered. -/
inductive ProviderResponse where
  | unreachable
  | httpError
  | success (body : OsrmBody)
deriving DecidableEq

/-- `capitalize` from MapView.tsx: uppercase the first character and
append `s.slice(1)` with every hyphen replaced by a space (a global
regex replace in the source). -/
def capitalize (s : String) : String :=
  match s.data with
  | [] => ""
  | c :: rest =>
    String.mk (c.toUpper :: rest.map (fun ch => if ch = '-' then ' ' else ch))

/-- The instruction string derived for one step in `fetchRoute`'s
`steps` mapping. -/
def stepInstruction (step : OsrmStep) : String :=
  if step.maneuverType = "depart" then "Start"
  else if step.maneuverType = "arrive" then "Arrive at destination"
  else
    capitalize step.maneuverType ++
      (if step.modifier = "" then "" else " " ++ step.modifier) ++
      " — " ++ (if step.name = "" then "unnamed road" else step.name)

/-- `fetchRoute` from MapView.tsx, as a function of the provider's
response.  Every `throw` inside the `try` block lands in the `catch`
that returns `null`, including the access `route.legs[0].steps` on a
route with no legs; `null` is modelled by `none`. -/
def fetchRoute (resp : ProviderResponse) : Option RouteData :=
  match resp with
  | .unreachable => none
  | .httpError => none
  | .success data =>
    if data.code ≠ "Ok" ∨ data.routes.length = 0 then none
    else
      match data.routes with
      | [] => none
      | route :: _ =>
        match route.legs with
        | [] => none
        | leg :: _ =>
          some
            { coordinates := route.geometry.map (fun c => (c.2, c.1))
              totalDistance := route.distance / 1000
              totalDuration := route.duration / 60
              steps := leg.steps.map (fun step =>
                { instruction := stepInstruction step
                  distance := step.distance
                  duration := step.duration }) }

/-- Claim C5: whenever the directions provider is unreachable, returns a
non-success status, or returns an empty route list, `fetchRoute` returns
the distinguished "no route" value `none` instead of propagating an
exception. -/
theorem fetchRoute_failure_none (resp : ProviderResponse)
    (h : resp = .unreachable ∨ resp = .httpError ∨
      ∃ body, resp = .success body ∧
        (body.code ≠ "Ok" ∨ body.routes = [])) :
    fetchRoute resp = none := by
  rcases h with h | h | ⟨body, rfl, hbody⟩
  · rw [h]; rfl
  · rw [h]; rfl
  · rw [fetchRoute]
    rcases hbody with hc | hr
    · rw [if_pos (Or.inl hc)]
    · rw [if_pos (Or.inr (by rw [hr]; rfl))]

/-- Witness for C5 at a concrete failing response. -/
theorem fetchRoute_failure_none_witness :
    fetchRoute (.success { code := "NoRoute", routes := [] }) = none :=
  fetchRoute_failure_none (.success { code := "NoRoute", routes := [] })
    (Or.inr (Or.inr ⟨{ code := "NoRoute", routes := [] }, rfl,
      Or.inl (by decide)⟩))

/-- Claim C7: a depart maneuver renders as "Start", an arrive maneuver
as "Arrive at destination", and every other maneuver as the capitalized
maneuver type (hyphens after the first character replaced by spaces),
followed by a space and the modifier when one is present, followed by
an em-dash separator and the road name, with "unnamed road" substituted
for an empty name.  Concrete renderings of each clause are included. -/
theorem stepInstruction_policy :
    (∀ st : OsrmStep, st.maneuverType = "depart" →
      stepInstruction st = "Start") ∧
    (∀ st : OsrmStep, st.maneuverType = "arrive" →
      stepInstruction st = "Arrive at destination") ∧
    (∀ st : OsrmStep, st.maneuverType ≠ "depart" → st.maneuverType ≠ "arrive" →
      st.modifier ≠ "" →
      stepInstruction st = capitalize st.maneuverType ++ (" " ++ st.modifier) ++
        " — " ++ (if st.name = "" then "unnamed road" else st.name)) ∧
    (∀ st : OsrmStep, st.maneuverType ≠ "depart" → st.maneuverType ≠ "arrive" →
      st.modifier = "" →
      stepInstruction st = capitalize st.maneuverType ++
        " — " ++ (if st.name = "" then "unnamed road" else st.name)) ∧
    capitalize "on-ramp" = "On ramp" ∧
    stepInstruction
        { maneuverType := "turn", modifier := "left", name := "Main St",
          distance := 0, duration := 0 } = "Turn left — Main St" ∧
    stepInstruction
        { maneuverType := "roundabout-exit", modifier := "", name := "",
          distance := 0, duration := 0 } =
      "Roundabout exit — unnamed road" := by
  refine ⟨?_, ?_, ?_, ?_, ?_, ?_, ?_⟩
  · intro st h
    rw [stepInstruction, if_pos h]
  · intro st h1
    by_cases h0 : st.maneuverType = "depart"
    · rw [h0] at h1
      exact absurd h1 (by decide)
    · rw [stepInstruction, if_neg h0, if_pos h1]
  · intro st h1 h2 h3
    rw [stepInstruction, if_neg h1, if_neg h2, if_neg h3]
  · intro st h1 h2 h3
    rw [stepInstruction, if_neg h1, if_neg h2, if_pos h3]
    apply String.ext
    simp [String.data_append]
  · decide
  · decide
  · decide

/-- Witness for C7 at a concrete depart step. -/
theorem stepInstruction_policy_witness :
    stepInstruction
        { maneuverType := "depart", modifier := "", name := "",
          distance := 0, duration := 0 } = "Start" :=
  stepInstruction_policy.1
    { maneuverType := "depart", modifier := "", name := "",
      distance := 0, duration := 0 } rfl

/-- `Math.round` on the arguments the formatters reach: round half
toward positive infinity. -/
def jsRound (x : ℚ) : ℤ := ⌊x + 1 / 2⌋

/-- `Number.prototype.toFixed(1)` on the non-negative arguments
`formatDistance` reaches: the nearest tenth, with ties taking the larger
digit, printed with one decimal. -/
def toFixed1 (x : ℚ) : String :=
  let n : ℤ := ⌊x * 10 + 1 / 2⌋
  toString (n / 10) ++ "." ++ toString (n % 10)

/-- `formatDuration` from MapView.tsx.  The source computes
`Math.round(minutes % 60)` in the last branch; that branch is reached
only for `minutes ≥ 60`, where the JS remainder equals
`minutes - 60 * ⌊minutes / 60⌋`. -/
def formatDuration (minutes : ℚ) : String :=
  if minutes < 1 then "< 1 min"
  else if minutes < 60 then toString (jsRound minutes) ++ " min"
  else
    let hours : ℤ := ⌊minutes / 60⌋
    let mins : ℤ := jsRound (minutes - 60 * ⌊minutes / 60⌋)
    toString hours ++ "h " ++ toString mins ++ "m"

/-- `formatDistance` from MapView.tsx. -/
def formatDistance (meters : ℚ) : String :=
  if meters < 1000 then toString (jsRound meters) ++ " m"
  else toFixed1 (meters / 1000) ++ " km"

/-- Claim C8: for non-negative inputs, `formatDuration` renders
"< 1 min" below one minute, the rounded whole minutes below an hour, and
hours plus rounded remainder minutes otherwise; `formatDistance` renders
rounded whole meters below a kilometer and one-decimal kilometers
otherwise; and the spec's five concrete values hold. -/
theorem format_policy (x : ℚ) (hx : 0 ≤ x) :
    (x < 1 → formatDuration x = "< 1 min") ∧
    (1 ≤ x → x < 60 → formatDuration x = toString (jsRound x) ++ " min") ∧
    (60 ≤ x → formatDuration x =
      toString ⌊x / 60⌋ ++ "h " ++
        toString (jsRound (x - 60 * ⌊x / 60⌋)) ++ "m") ∧
    (x < 1000 → formatDistance x = toString (jsRound x) ++ " m") ∧
    (1000 ≤ x → formatDistance x = toFixed1 (x / 1000) ++ " km") ∧
    formatDuration (1 / 2) = "< 1 min" ∧
    formatDuration 45 = "45 min" ∧
    formatDuration 125 = "2h 5m" ∧
    formatDistance 500 = "500 m" ∧
    formatDistance 2500 = "2.5 km" := by
  refine ⟨?_, ?_, ?_, ?_, ?_, ?_, ?_, ?_, ?_, ?_⟩
  · intro h
    rw [formatDuration, if_pos h]
  · intro h1 h2
    rw [formatDuration, if_neg (not_lt.mpr h1), if_pos h2]
  · intro h
    rw [formatDuration, if_neg (not_lt.mpr (by linarith)),
      if_neg (not_lt.mpr h)]
  · intro h
    rw [formatDistance, if_pos h]
  · intro h
    rw [formatDistance, if_neg (not_lt.mpr h)]
  · rw [formatDuration, if_pos (by norm_num)]
  · rw [formatDuration, if_neg (by norm_num), if_pos (by norm_num)]
    have h : jsRound (45 : ℚ) = 45 := by norm_num [jsRound, Int.floor_eq_iff]
    rw [h]
    rfl
  · rw [formatDuration, if_neg (by norm_num), if_neg (by norm_num)]
    have h1 : ⌊(125 : ℚ) / 60⌋ = 2 := by norm_num [Int.floor_eq_iff]
    have h2 : jsRound (125 - 60 * ((2 : ℤ) : ℚ)) = 5 := by
      norm_num [jsRound, Int.floor_eq_iff]
    rw [h1, h2]
    rfl
  · rw [formatDistance, if_pos (by norm_num)]
    have h : jsRound (500 : ℚ) = 500 := by
      norm_num [jsRound, Int.floor_eq_iff]
    rw [h]
    rfl
  · rw [formatDistance, if_neg (by norm_num)]
    have h : ⌊(2500 : ℚ) / 1000 * 10 + 1 / 2⌋ = 25 := by
      norm_num [Int.floor_eq_iff]
    rw [toFixed1, h]
    rfl

/-- Witness for C8 at a concrete sub-minute duration. -/
theorem format_policy_witness : formatDuration (1 / 2) = "< 1 min" :=
  (format_policy (1 / 2) (by norm_num)).1 (by norm_num)

noncomputable section

/-- `deg2rad` from the server utility in src/unnamed/part_000. -/
def deg2rad (deg : ℝ) : ℝ := deg * (Real.pi / 180)

/-- `Math.atan2` as specified for JavaScript, on real numbers (the
`atan2(0, 0) = 0` convention included). -/
def atan2 (y x : ℝ) : ℝ :=
  if 0 < x then Real.arctan (y / x)
  else if x < 0 ∧ 0 ≤ y then Real.arctan (y / x) + Real.pi
  else if x < 0 ∧ y < 0 then Real.arctan (y / x) - Real.pi
  else if x = 0 ∧ 0 < y then Real.pi / 2
  else if x = 0 ∧ y < 0 then -(Real.pi / 2)
  else 0

/-- Coordinates as real numbers, for the transcendental haversine
computation. -/
structure RealLocation where
  lat : ℝ
  lng : ℝ

/-- `getDistance` from src/unnamed/part_000: the haversine great-circle
distance in kilometers with Earth radius 6371 km, over the reals (the
source's IEEE doubles idealised as exact reals). -/
def getDistance (loc1 loc2 : RealLocation) : ℝ :=
  let R : ℝ := 6371
  let dLat := deg2rad (loc2.lat - loc1.lat)
  let dLon := deg2rad (loc2.lng - loc1.lng)
  let a := Real.sin (dLat / 2) * Real.sin (dLat / 2) +
    Real.cos (deg2rad loc1.lat) * Real.cos (deg2rad loc2.lat) *
    Real.sin (dLon / 2) * Real.sin (dLon / 2)
  let c := 2 * atan2 (Real.sqrt a) (Real.sqrt (1 - a))
  R * c

end

/-- Claim C9: for coordinates in the valid latitude and longitude
ranges, the haversine distance is symmetric and is exactly 0 for equal
coordinates (both facts hold for all real coordinates; the range
hypotheses restate the claim's domain). -/
theorem getDistance_symm_zero (a b : RealLocation)
    (ha1 : -90 ≤ a.lat) (ha2 : a.lat ≤ 90)
    (ha3 : -180 ≤ a.lng) (ha4 : a.lng ≤ 180)
    (hb1 : -90 ≤ b.lat) (hb2 : b.lat ≤ 90)
    (hb3 : -180 ≤ b.lng) (hb4 : b.lng ≤ 180) :
    getDistance a b = getDistance b a ∧ getDistance a a = 0 := by
  constructor
  · unfold getDistance
    have hlat : deg2rad (a.lat - b.lat) = -(deg2rad (b.lat - a.lat)) := by
      unfold deg2rad; ring
    have hlng : deg2rad (a.lng - b.lng) = -(deg2rad (b.lng - a.lng)) := by
      unfold deg2rad; ring
    simp only [hlat, hlng, neg_div, Real.sin_neg, neg_mul_neg]
    ring_nf
  · unfold getDistance
    simp only [sub_self]
    have h0 : deg2rad 0 = 0 := by unfold deg2rad; ring
    rw [h0]
    simp only [zero_div, Real.sin_zero, mul_zero, zero_mul, add_zero,
      zero_add, Real.sqrt_zero, sub_zero, Real.sqrt_one]
    rw [atan2, if_pos one_pos]
    simp [Real.arctan_zero]

/-- Witness for C9 at concrete coordinates. -/
theorem getDistance_symm_zero_witness :
    getDistance { lat := 0, lng := 0 } { lat := 45, lng := 90 } =
      getDistance { lat := 45, lng := 90 } { lat := 0, lng := 0 } ∧
    getDistance { lat := 0, lng := 0 } { lat := 0, lng := 0 } = 0 :=
  getDistance_symm_zero { lat := 0, lng := 0 } { lat := 45, lng := 90 }
    (by norm_num) (by norm_num) (by norm_num) (by norm_num)
    (by norm_num) (by norm_num) (by norm_num) (by norm_num)
